import Mathlib

/-!
Verification of `djangbone/views.py` (the `BackboneAPIView` class and its
`DjangboneJSONEncoder`) against its natural-language specification.

The embedding below translates the Python source shallowly:

* A database row (Django model instance) is an `Entity`: an integer primary
  key `id` plus a map from attribute names to Python values.
* `base_queryset` is an ordered `List Entity` (the backing store in its
  natural order); Django queryset operations `filter(id=...)`, `get(id=...)`,
  `.values(*fields)`, slicing and `delete()` are modelled as the corresponding
  list operations.  Queryset slicing `values[a:b]` is modelled by `qsSlice`:
  Django rejects a negative slice bound by raising ("Negative indexing is
  not supported."), an error the surrounding code does not catch; with
  non-negative bounds it slices like a Python sequence (`pySlice`).
* JSON decoding of the request body (`json.JSONDecoder().decode`, which can
  raise `ValueError`) is modelled by an `Option` of an already-parsed
  dictionary; `None` is the parse-failure case.
* Django `ModelForm` classes (`add_form_class` / `edit_form_class`) are
  external collaborators; they are modelled abstractly by `AddFormClass` /
  `EditFormClass`: a boolean validator `is_valid`, the attribute dictionary
  produced by `save()`, and the `errors` mapping.  A successful `save()` on an
  add-form inserts one fresh row (auto-increment primary key, `freshId`); on
  an edit-form it overwrites the bound instance's row in place.  The optional
  `set_request` hook only hands the request object to the form and has no
  observable effect in this model.
* `raise Http404` propagates to the hosting framework, producing a 404; any
  other uncaught exception (`IndexError` from `values[0]`,
  `MultipleObjectsReturned` from `get`) is the `uncaught` outcome.
-/

namespace Djangbone

/-- A naive datetime value, standing for Python `datetime.datetime`. -/
structure DateTime where
  year : Nat
  month : Nat
  day : Nat
  hour : Nat
  minute : Nat
  second : Nat
deriving DecidableEq

/-- Zero-pad a numeral to two digits, as `datetime.isoformat` does. -/
def pad2 (n : Nat) : String :=
  if n < 10 then "0" ++ toString n else toString n

/-- Zero-pad a year to four digits, as `datetime.isoformat` does. -/
def pad4 (n : Nat) : String :=
  if n < 10 then "000" ++ toString n
  else if n < 100 then "00" ++ toString n
  else if n < 1000 then "0" ++ toString n
  else toString n

/-- Python `datetime.isoformat()`: an ISO-8601 `YYYY-MM-DDTHH:MM:SS` string. -/
def DateTime.isoformat (d : DateTime) : String :=
  pad4 d.year ++ "-" ++ pad2 d.month ++ "-" ++ pad2 d.day ++ "T" ++
    pad2 d.hour ++ ":" ++ pad2 d.minute ++ ":" ++ pad2 d.second

/-- A Python value as it can occur in a model field or a decoded JSON body.
`pyOther` stands for any Python object of a type the base `json.JSONEncoder`
does not support and that is not a `datetime.datetime`. -/
inductive PyValue where
  | pyStr (s : String)
  | pyInt (n : Int)
  | pyBool (b : Bool)
  | pyNone
  | pyDatetime (d : DateTime)
  | pyOther
deriving DecidableEq

/-- A JSON scalar as produced by the encoder. -/
inductive JsonValue where
  | jStr (s : String)
  | jInt (n : Int)
  | jBool (b : Bool)
  | jNull
deriving DecidableEq

/-- `DjangboneJSONEncoder.default` (views.py lines 15-19): called by the base
encoder on values it cannot serialize natively; converts `datetime` objects to
ISO strings and returns `None` for everything else. -/
def encoder_default (v : PyValue) : PyValue :=
  match v with
  | .pyDatetime d => .pyStr d.isoformat
  | _ => .pyNone

/-- Encoding of one Python value by `DjangboneJSONEncoder`: strings, ints,
bools and `None` are handled natively by `json.JSONEncoder`; every other value
goes through `encoder_default` (whose result is always natively encodable). -/
def encodeValue (v : PyValue) : JsonValue :=
  match v with
  | .pyStr s => .jStr s
  | .pyInt n => .jInt n
  | .pyBool b => .jBool b
  | .pyNone => .jNull
  | v =>
    match encoder_default v with
    | .pyStr s => .jStr s
    | _ => .jNull

/-- A database row: integer primary key plus named attributes. -/
structure Entity where
  id : Nat
  attrs : List (String × PyValue)
deriving DecidableEq

/-- Attribute access on a row, as used by `.values(*fields)`: the primary key
is the `id` field; other names are looked up in the attribute map. -/
def Entity.getattr (e : Entity) (f : String) : PyValue :=
  if f = "id" then .pyInt (e.id : Int)
  else
    match e.attrs.find? (fun p => p.1 == f) with
    | some p => p.2
    | none => .pyNone

/-- The dictionary `.values(*fields)` produces for one row: the configured
field names, in order, each paired with the row's value. -/
def entityValues (fields : List String) (e : Entity) : List (String × PyValue) :=
  fields.map (fun f => (f, e.getattr f))

/-- `queryset.values(*fields)`: one dictionary per row, in queryset order. -/
def qsValues (fields : List String) (qs : List Entity) : List (List (String × PyValue)) :=
  qs.map (entityValues fields)

/-- JSON-encode one `.values()` dictionary. -/
def encodeDict (d : List (String × PyValue)) : List (String × JsonValue) :=
  d.map (fun p => (p.1, encodeValue p.2))

/-- Digit-string to number; `none` when empty or a non-digit occurs. -/
def digitsToNat? (cs : List Char) : Option Nat :=
  if cs.isEmpty then none
  else
    cs.foldl
      (fun acc c =>
        match acc with
        | none => none
        | some n => if c.isDigit then some (n * 10 + (c.toNat - 48)) else none)
      (some 0)

/-- Strip leading and trailing whitespace from a character list, as Python
`int(s)` does with its string argument. -/
def stripWs (cs : List Char) : List Char :=
  ((cs.dropWhile Char.isWhitespace).reverse.dropWhile Char.isWhitespace).reverse

/-- Python `int(s)` on a string: optional surrounding whitespace, optional
sign, then decimal digits; `none` models the `ValueError` it raises
otherwise. -/
def pyIntOfString? (s : String) : Option Int :=
  match stripWs s.toList with
  | '-' :: rest => (digitsToNat? rest).map (fun n => -(n : Int))
  | '+' :: rest => (digitsToNat? rest).map (fun n => (n : Int))
  | cs => (digitsToNat? cs).map (fun n => (n : Int))

/-- Python sequence slice `l[start:stop]`, with negative indices counting from
the end and out-of-range bounds clamped.  Django querysets only ever perform
the non-negative case; `qsSlice` below enforces that restriction. -/
def pySlice {α : Type} (l : List α) (start stop : Int) : List α :=
  let n : Int := l.length
  let s : Int := if start < 0 then max (n + start) 0 else min start n
  let e : Int := if stop < 0 then max (n + stop) 0 else min stop n
  (l.drop s.toNat).take (e - s).toNat

/-- Django queryset slicing `qs[start:stop]`: a negative bound raises
"Negative indexing is not supported." (modelled `none`, an error nothing in
`views.py` catches); non-negative bounds slice like a Python sequence. -/
def qsSlice {α : Type} (l : List α) (start stop : Int) : Option (List α) :=
  if start < 0 ∨ stop < 0 then none
  else some (pySlice l start stop)

/-- `request.GET.get(name)`: look a query parameter up by name. -/
def queryGet (params : List (String × String)) (name : String) : Option String :=
  (params.find? (fun p => p.1 == name)).map (fun p => p.2)

/-- Abstract model of an `add_form_class` (a Django `ModelForm` used for
POST): validation verdict, the attribute dictionary of the instance `save()`
creates, and the `errors` mapping reported on failure. -/
structure AddFormClass where
  is_valid : List (String × PyValue) → Bool
  newAttrs : List (String × PyValue) → List (String × PyValue)
  errors : List (String × PyValue) → List (String × String)

/-- Abstract model of an `edit_form_class` (a Django `ModelForm` used for
PUT): validation verdict, the updated attribute dictionary `save()` writes to
the bound instance, and the `errors` mapping reported on failure. -/
structure EditFormClass where
  is_valid : List (String × PyValue) → Bool
  updAttrs : List (String × PyValue) → List (String × PyValue) → List (String × PyValue)
  errors : List (String × PyValue) → List (String × String)

/-- The class-level configuration of a `BackboneAPIView` subclass
(views.py lines 32-45): serialization allowlist, optional pagination settings
and optional form classes.  `page_size = some n` is the
`isinstance(self.page_size, int)` case. -/
structure ViewConfig where
  serialize_fields : List String
  page_size : Option Int
  page_param_name : String
  add_form_class : Option AddFormClass
  edit_form_class : Option EditFormClass

/-- The serialized output: a single JSON object or a JSON array of objects. -/
inductive JsonOut where
  | obj (fields : List (String × JsonValue))
  | arr (items : List (List (String × JsonValue)))
deriving DecidableEq

/-- An HTTP response body: plain text or encoded JSON. -/
inductive Body where
  | text (s : String)
  | json (j : JsonOut)
deriving DecidableEq

/-- A Django `HttpResponse`: status code, body, mimetype (Django's default
mimetype is `text/html`). -/
structure HttpResponse where
  status : Nat
  body : Body
  mimetype : String
deriving DecidableEq

/-- Outcome of one handler invocation: a returned response, a raised
`Http404` (turned into a 404 by the framework), or any other uncaught
exception. -/
inductive HandlerResult where
  | ok (r : HttpResponse)
  | http404
  | uncaught
deriving DecidableEq

/-- `serialize_qs` (views.py lines 147-170).  `kwargsId` is
`self.kwargs.get('id')` (the URL keyword argument), `getParams` is
`self.request.GET`.  Returns `none` when an uncaught error escapes: the
`IndexError` from `values[0]` on an empty queryset in the single-object
branch, or the negative-indexing error raised by the queryset slice (the
slice sits outside the `try/except ValueError`, which only guards the
`int(...)` conversion).  When the page parameter is absent, `GET.get`
returns the default `1`, so the offset is `0`; a `ValueError` from
`int(...)` also yields offset `0`. -/
def serialize_qs (cfg : ViewConfig) (kwargsId : Option Nat)
    (getParams : List (String × String)) (queryset : List Entity)
    (single_object : Bool) : Option JsonOut :=
  let values := qsValues cfg.serialize_fields queryset
  if single_object || kwargsId.isSome then
    match values with
    | [] => none
    | v :: _ => some (JsonOut.obj (encodeDict v))
  else
    let values := qsValues cfg.serialize_fields queryset
    match cfg.page_size with
    | some page_size =>
      let offset : Int :=
        match queryGet getParams cfg.page_param_name with
        | none => 0
        | some s =>
          match pyIntOfString? s with
          | some page_number => (page_number - 1) * page_size
          | none => 0
      match qsSlice values offset (offset + page_size) with
      | some sliced => some (JsonOut.arr (sliced.map encodeDict))
      | none => none
    | none => some (JsonOut.arr (values.map encodeDict))

/-- `success_response` (views.py lines 172-176): JSON output with the
`application/json` mimetype and the default 200 status. -/
def success_response (output : JsonOut) : HttpResponse :=
  ⟨200, Body.json output, "application/json"⟩

/-- `validation_error_response` (views.py lines 178-186): a plain-text
response that ignores its `form_errors` argument entirely. -/
def validation_error_response (form_errors : List (String × String)) : HttpResponse :=
  ⟨200, Body.text "ERROR: validation failed", "text/html"⟩

/-- `get_single_item` (views.py lines 56-66): filter by id, 404 unless the
assertion `len(qs) == 1` holds, otherwise serialize and return. -/
def get_single_item (cfg : ViewConfig) (db : List Entity) (theId : Nat)
    (getParams : List (String × String)) : HandlerResult :=
  let qs := db.filter (fun e => e.id == theId)
  if qs.length = 1 then
    match serialize_qs cfg (some theId) getParams qs false with
    | some out => .ok (success_response out)
    | none => .uncaught
  else
    .http404

/-- `get_collection` (views.py lines 68-74): serialize the full base
queryset; no id is present in `kwargs` on this path. -/
def get_collection (cfg : ViewConfig) (db : List Entity)
    (getParams : List (String × String)) : HandlerResult :=
  match serialize_qs cfg none getParams db false with
  | some out => .ok (success_response out)
  | none => .uncaught

/-- `get` (views.py lines 47-54): dispatch on the truthiness of
`kwargs.get('id')`. -/
def get (cfg : ViewConfig) (db : List Entity) (kwargsId : Option Nat)
    (getParams : List (String × String)) : HandlerResult :=
  match kwargsId with
  | some theId => get_single_item cfg db theId getParams
  | none => get_collection cfg db getParams

/-- The auto-increment primary key the backing store assigns to a newly
inserted row: one more than the largest id present. -/
def freshId (db : List Entity) : Nat :=
  (db.map (fun e => e.id)).foldl max 0 + 1

/-- `post` (views.py lines 76-103).  `rawBody` is the decoded JSON request
body (`none` = `ValueError` on decode).  A valid form saves one new row, then
the handler re-fetches it by its new id and serializes it with
`single_object=True`.  Returns the handler outcome and the resulting store. -/
def post (cfg : ViewConfig) (db : List Entity) (kwargsId : Option Nat)
    (getParams : List (String × String))
    (rawBody : Option (List (String × PyValue))) : HandlerResult × List Entity :=
  match cfg.add_form_class with
  | none => (.ok ⟨405, Body.text "POST not supported", "text/html"⟩, db)
  | some form =>
    match rawBody with
    | none => (.ok ⟨400, Body.text "Invalid POST JSON", "text/html"⟩, db)
    | some request_dict =>
      if form.is_valid request_dict then
        let new_object : Entity := ⟨freshId db, form.newAttrs request_dict⟩
        let db2 := db ++ [new_object]
        let wrapper_qs := db2.filter (fun e => e.id == new_object.id)
        match serialize_qs cfg kwargsId getParams wrapper_qs true with
        | some out => (.ok (success_response out), db2)
        | none => (.uncaught, db2)
      else
        (.ok (validation_error_response (form.errors request_dict)), db)

/-- `queryset.get(id=...)`: exactly one match, or `DoesNotExist`, or
`MultipleObjectsReturned`. -/
inductive GetResult where
  | found (e : Entity)
  | doesNotExist
  | multipleReturned
deriving DecidableEq

/-- Result of `base_queryset.get(id=i)`. -/
def dbGet (db : List Entity) (i : Nat) : GetResult :=
  match db.filter (fun e => e.id == i) with
  | [] => .doesNotExist
  | [e] => .found e
  | _ => .multipleReturned

/-- `put` (views.py lines 105-131).  The body is decoded before the instance
lookup, so a decode failure yields 400 even for a missing id; a missing
instance raises `Http404`; `MultipleObjectsReturned` is uncaught.  A valid
form overwrites the bound instance's row in place, then the handler
re-fetches it and serializes with `single_object=True`. -/
def put (cfg : ViewConfig) (db : List Entity) (kwargsId : Option Nat)
    (getParams : List (String × String))
    (rawBody : Option (List (String × PyValue))) : HandlerResult × List Entity :=
  match cfg.edit_form_class, kwargsId with
  | none, _ => (.ok ⟨405, Body.text "PUT not supported", "text/html"⟩, db)
  | some _, none => (.ok ⟨405, Body.text "PUT not supported", "text/html"⟩, db)
  | some form, some theId =>
    match rawBody with
    | none => (.ok ⟨400, Body.text "Invalid PUT JSON", "text/html"⟩, db)
    | some request_dict =>
      match dbGet db theId with
      | .doesNotExist => (.http404, db)
      | .multipleReturned => (.uncaught, db)
      | .found inst =>
        if form.is_valid request_dict then
          let item : Entity := ⟨inst.id, form.updAttrs inst.attrs request_dict⟩
          let db2 := db.map (fun e => if e.id == theId then item else e)
          let wrapper_qs := db2.filter (fun e => e.id == item.id)
          match serialize_qs cfg kwargsId getParams wrapper_qs true with
          | some out => (.ok (success_response out), db2)
          | none => (.uncaught, db2)
        else
          (.ok (validation_error_response (form.errors request_dict)), db)

/-- `delete` (views.py lines 133-145): 405 without an id; with an id, filter,
404 on an empty queryset, otherwise serialize the pre-deletion snapshot
(the `kwargs` id routes `serialize_qs` into its single-object branch), delete
the matching rows, and return the snapshot. -/
def delete (cfg : ViewConfig) (db : List Entity) (kwargsId : Option Nat)
    (getParams : List (String × String)) : HandlerResult × List Entity :=
  match kwargsId with
  | none => (.ok ⟨405, Body.text "DELETE is not supported for collections", "text/html"⟩, db)
  | some theId =>
    let qs := db.filter (fun e => e.id == theId)
    if qs.isEmpty then
      (.http404, db)
    else
      match serialize_qs cfg (some theId) getParams qs false with
      | some out => (.ok (success_response out), db.filter (fun e => !(e.id == theId)))
      | none => (.uncaught, db)

/-- The single dictionary, or list of dictionaries, inside a serialized
output. -/
def jsonDicts : JsonOut → List (List (String × JsonValue))
  | .obj d => [d]
  | .arr l => l

/-- Length of the JSON array in a 200 response body, when there is one. -/
def arrLen : HandlerResult → Option Nat
  | .ok ⟨_, Body.json (JsonOut.arr l), _⟩ => some l.length
  | _ => none

/-- Page offset as the specification words it: the page number is read from
the configured query parameter, defaulting to 1 when the parameter is absent,
and the zero-based offset is `(page_number - 1) * page_size`; a non-numeric
value falls back to offset 0.  Stated independently of `serialize_qs` so the
code's pagination can be compared against it. -/
def specPageOffset (getParams : List (String × String)) (pname : String)
    (page_size : Int) : Int :=
  match queryGet getParams pname with
  | none => (1 - 1) * page_size
  | some s =>
    match pyIntOfString? s with
    | some page_number => (page_number - 1) * page_size
    | none => 0

/-- Test fixture: first user row (mirrors `tests.py` `setUp`). -/
def user1 : Entity := ⟨1, [("username", PyValue.pyStr "test1")]⟩

/-- Test fixture: second user row. -/
def user2 : Entity := ⟨2, [("username", PyValue.pyStr "test2")]⟩

/-- Test fixture: third user row. -/
def user3 : Entity := ⟨3, [("username", PyValue.pyStr "test3")]⟩

/-- Test fixture: a three-row store. -/
def db3 : List Entity := [user1, user2, user3]

/-- Test fixture mirroring `ReadOnlyView`: no forms, no pagination. -/
def roCfg : ViewConfig := ⟨["id", "username"], none, "p", none, none⟩

/-- Test fixture add-form: requires a `username` key, copies it over. -/
def testAddForm : AddFormClass :=
  ⟨fun d => (d.find? (fun p => p.1 == "username")).isSome,
   fun d => [("username", (((d.find? (fun p => p.1 == "username")).map (fun p => p.2)).getD PyValue.pyNone))],
   fun _ => [("username", "This field is required.")]⟩

/-- Test fixture edit-form: requires a `username` key, overwrites the bound
instance's attributes with the submitted ones. -/
def testEditForm : EditFormClass :=
  ⟨fun d => (d.find? (fun p => p.1 == "username")).isSome,
   fun _ d => [("username", (((d.find? (fun p => p.1 == "username")).map (fun p => p.2)).getD PyValue.pyNone))],
   fun _ => [("username", "This field is required.")]⟩

/-- Test fixture mirroring `FullView`: forms configured, page size 2. -/
def pagCfg : ViewConfig := ⟨["id", "username"], some 2, "p", some testAddForm, some testEditForm⟩

/-- Whether a serialized output is a single JSON object. -/
def JsonOut.isObj : JsonOut → Bool
  | .obj _ => true
  | .arr _ => false

/-- Whether a response body is a single JSON object. -/
def Body.isJsonObj : Body → Bool
  | Body.json (JsonOut.obj _) => true
  | _ => false

/-- Whether a response body is a JSON array. -/
def Body.isJsonArr : Body → Bool
  | Body.json (JsonOut.arr _) => true
  | _ => false

/-- Test fixture: a concrete timestamp. -/
def dt0 : DateTime := ⟨2012, 1, 2, 3, 4, 5⟩

/-- An initial accumulator is below a `foldl max`. -/
theorem init_le_foldl_max (l : List Nat) : ∀ a : Nat, a ≤ l.foldl max a := by
  induction l with
  | nil => intro a; exact le_refl a
  | cons h t ih => intro a; exact le_trans (le_max_left a h) (ih (max a h))

/-- Every list member is below a `foldl max`. -/
theorem mem_le_foldl_max (l : List Nat) : ∀ a x : Nat, x ∈ l → x ≤ l.foldl max a := by
  induction l with
  | nil => intro a x hx; cases hx
  | cons h t ih =>
    intro a x hx
    cases hx with
    | head => exact le_trans (le_max_right a _) (init_le_foldl_max t _)
    | tail _ hmem => exact ih (max a h) x hmem

/-- The auto-increment id is strictly larger than every existing id. -/
theorem id_lt_freshId {db : List Entity} {e : Entity} (he : e ∈ db) :
    e.id < freshId db := by
  have : e.id ≤ (db.map (fun x => x.id)).foldl max 0 :=
    mem_le_foldl_max _ 0 e.id (List.mem_map.mpr ⟨e, he, rfl⟩)
  exact Nat.lt_succ_of_le this

/-- C1: for every GET request carrying an id, if filtering the base
collection by that id yields exactly one entity the response is 200 with that
entity serialized as a single JSON object; if the filter yields zero or more
than one entity the response is Not Found (404). -/
theorem get_single_item_spec (cfg : ViewConfig) (db : List Entity) (i : Nat)
    (gp : List (String × String)) :
    (∀ e : Entity, db.filter (fun x => x.id == i) = [e] →
      get cfg db (some i) gp =
        HandlerResult.ok ⟨200,
          Body.json (JsonOut.obj (encodeDict (entityValues cfg.serialize_fields e))),
          "application/json"⟩) ∧
    ((db.filter (fun x => x.id == i)).length ≠ 1 →
      get cfg db (some i) gp = HandlerResult.http404) := by
  constructor
  · intro e he
    simp [get, get_single_item, he, serialize_qs, qsValues, success_response]
  · intro h
    simp [get, get_single_item, h]

/-- Witness for C1: in a one-row store, GET id 1 returns that row as an
object and GET id 7 is a 404. -/
theorem get_single_item_spec_witness :
    get roCfg [user1] (some 1) [] =
      HandlerResult.ok ⟨200,
        Body.json (JsonOut.obj (encodeDict (entityValues roCfg.serialize_fields user1))),
        "application/json"⟩ ∧
    get roCfg [user1] (some 7) [] = HandlerResult.http404 :=
  ⟨(get_single_item_spec roCfg [user1] 1 []).1 user1 (by decide),
   (get_single_item_spec roCfg [user1] 7 []).2 (by decide)⟩

/-- C9: the default validation-failure response is byte-for-byte identical —
body exactly `ERROR: validation failed`, status 200 — whatever form errors
are passed to it; the error details never reach the response. -/
theorem validation_error_response_uniform (errs errs2 : List (String × String)) :
    validation_error_response errs =
      ⟨200, Body.text "ERROR: validation failed", "text/html"⟩ ∧
    validation_error_response errs = validation_error_response errs2 :=
  ⟨rfl, rfl⟩

/-- A Python slice of a list only contains elements of that list. -/
theorem pySlice_subset {α : Type} (l : List α) (a b : Int) : pySlice l a b ⊆ l := by
  intro x hx
  simp only [pySlice] at hx
  exact List.drop_subset _ l (List.take_subset _ _ hx)

/-- A successful queryset slice only contains elements of the queryset. -/
theorem qsSlice_subset {α : Type} {l res : List α} {a b : Int}
    (h : qsSlice l a b = some res) : res ⊆ l := by
  unfold qsSlice at h
  split at h
  · simp at h
  · simp only [Option.some.injEq] at h
    rw [← h]
    exact pySlice_subset l a b

/-- The keys of a serialized row are exactly the configured field names. -/
theorem encodeDict_keys (fields : List String) (e : Entity) :
    (encodeDict (entityValues fields e)).map Prod.fst = fields := by
  simp only [encodeDict, entityValues, List.map_map]
  exact List.map_id'' (fun x => rfl) fields

/-- C7: a request that resolves to exactly one entity — the URL supplied an
id, or the handler asked for single-object serialization — serializes to a
single JSON mapping, never a one-element array, and a GET without an id
serializes to a JSON array. -/
theorem serialize_single_vs_array (cfg : ViewConfig) (ki : Option Nat)
    (gp : List (String × String)) (qs db : List Entity) (so : Bool) :
    (∀ out : JsonOut, serialize_qs cfg ki gp qs so = some out →
      out.isObj = (so || ki.isSome)) ∧
    (∀ (i : Nat) (r : HttpResponse), get cfg db (some i) gp = HandlerResult.ok r →
      r.body.isJsonObj = true) ∧
    (∀ r : HttpResponse, get cfg db none gp = HandlerResult.ok r →
      r.body.isJsonArr = true) := by
  have key : ∀ (ki : Option Nat) (qs : List Entity) (so : Bool) (out : JsonOut),
      serialize_qs cfg ki gp qs so = some out → out.isObj = (so || ki.isSome) := by
    intro ki qs so out hout
    unfold serialize_qs at hout
    by_cases hc : (so || ki.isSome) = true
    · rw [hc]
      simp only [hc, if_true] at hout
      cases hq : qsValues cfg.serialize_fields qs with
      | nil => rw [hq] at hout; simp at hout
      | cons v rest =>
        rw [hq] at hout
        simp only [Option.some.injEq] at hout
        rw [← hout]
        rfl
    · rw [Bool.not_eq_true] at hc
      rw [hc]
      simp only [hc, Bool.false_eq_true, if_false] at hout
      split at hout
      · split at hout
        · simp only [Option.some.injEq] at hout
          rw [← hout]
          rfl
        · simp at hout
      · simp only [Option.some.injEq] at hout
        rw [← hout]
        rfl
  refine ⟨key ki qs so, ?_, ?_⟩
  · intro i r hr
    unfold get get_single_item at hr
    by_cases hl : (db.filter (fun e => e.id == i)).length = 1
    · simp only [hl, if_true] at hr
      cases hs : serialize_qs cfg (some i) gp (db.filter (fun e => e.id == i)) false with
      | none => rw [hs] at hr; simp at hr
      | some out =>
        rw [hs] at hr
        simp only [HandlerResult.ok.injEq] at hr
        have hobj : out.isObj = true := key (some i) _ false out hs
        rw [← hr]
        cases out with
        | obj d => rfl
        | arr l => simp [JsonOut.isObj] at hobj
    · simp only [hl, if_false] at hr
      simp at hr
  · intro r hr
    unfold get get_collection at hr
    cases hs : serialize_qs cfg none gp db false with
    | none => rw [hs] at hr; simp at hr
    | some out =>
      rw [hs] at hr
      simp only [HandlerResult.ok.injEq] at hr
      have hobj : out.isObj = false := key none db false out hs
      rw [← hr]
      cases out with
      | obj d => simp [JsonOut.isObj] at hobj
      | arr l => rfl

/-- Witness for C7: a concrete single-item GET yields an object body, a
concrete collection GET yields an array body, and the serializer's output on
a one-row queryset with an id is an object. -/
theorem serialize_single_vs_array_witness :
    (JsonOut.obj (encodeDict (entityValues roCfg.serialize_fields user1))).isObj =
      (false || (some 1 : Option Nat).isSome) ∧
    (⟨200, Body.json (JsonOut.obj (encodeDict (entityValues roCfg.serialize_fields user1))),
      "application/json"⟩ : HttpResponse).body.isJsonObj = true ∧
    (⟨200, Body.json (JsonOut.arr ((qsValues roCfg.serialize_fields db3).map encodeDict)),
      "application/json"⟩ : HttpResponse).body.isJsonArr = true :=
  ⟨(serialize_single_vs_array roCfg (some 1) [] [user1] [user1] false).1 _ (by decide),
   (serialize_single_vs_array roCfg (some 1) [] [user1] [user1] false).2.1 1 _ (by decide),
   (serialize_single_vs_array roCfg none [] db3 db3 false).2.2 _ (by decide)⟩

/-- C6: every serialized entity, in every handler, projects exactly the
configured field names; a datetime-valued field becomes an ISO-8601 string;
a value of any type the encoder does not support becomes `null`. -/
theorem serialization_projection (cfg : ViewConfig) (ki : Option Nat)
    (gp : List (String × String)) (qs : List Entity) (so : Bool) :
    (∀ out : JsonOut, serialize_qs cfg ki gp qs so = some out →
      ∀ d ∈ jsonDicts out, d.map Prod.fst = cfg.serialize_fields) ∧
    (∀ dt : DateTime, encodeValue (PyValue.pyDatetime dt) = JsonValue.jStr dt.isoformat) ∧
    encodeValue PyValue.pyOther = JsonValue.jNull := by
  refine ⟨?_, fun dt => rfl, rfl⟩
  have keyOf : ∀ d ∈ qsValues cfg.serialize_fields qs,
      (encodeDict d).map Prod.fst = cfg.serialize_fields := by
    intro d hd
    obtain ⟨e, _, rfl⟩ := List.mem_map.mp hd
    exact encodeDict_keys cfg.serialize_fields e
  intro out hout d hd
  unfold serialize_qs at hout
  by_cases hc : (so || ki.isSome) = true
  · simp only [hc, if_true] at hout
    cases hq : qsValues cfg.serialize_fields qs with
    | nil => rw [hq] at hout; simp at hout
    | cons v rest =>
      rw [hq] at hout
      simp only [Option.some.injEq] at hout
      rw [← hout] at hd
      simp only [jsonDicts, List.mem_singleton] at hd
      subst hd
      exact keyOf v (hq ▸ List.mem_cons_self v rest)
  · rw [Bool.not_eq_true] at hc
    simp only [hc, Bool.false_eq_true, if_false] at hout
    split at hout
    · split at hout
      · rename_i sliced hsl
        simp only [Option.some.injEq] at hout
        rw [← hout] at hd
        simp only [jsonDicts] at hd
        obtain ⟨v, hv, rfl⟩ := List.mem_map.mp hd
        exact keyOf v (qsSlice_subset hsl hv)
      · simp at hout
    · simp only [Option.some.injEq] at hout
      rw [← hout] at hd
      simp only [jsonDicts] at hd
      obtain ⟨v, hv, rfl⟩ := List.mem_map.mp hd
      exact keyOf v hv

/-- Witness for C6: on a concrete one-row queryset the serialized keys are
the configured fields, and the encoder maps a concrete datetime to its ISO
string and the unsupported value to `null`. -/
theorem serialization_projection_witness :
    (encodeDict (entityValues roCfg.serialize_fields user1)).map Prod.fst =
      roCfg.serialize_fields ∧
    encodeValue (PyValue.pyDatetime dt0) = JsonValue.jStr dt0.isoformat ∧
    encodeValue PyValue.pyOther = JsonValue.jNull :=
  ⟨(serialization_projection roCfg (some 1) [] [user1] false).1
      (JsonOut.obj (encodeDict (entityValues roCfg.serialize_fields user1))) (by decide)
      (encodeDict (entityValues roCfg.serialize_fields user1)) (by decide),
   (serialization_projection roCfg (some 1) [] [user1] false).2.1 dt0,
   (serialization_projection roCfg (some 1) [] [user1] false).2.2⟩

/-- Appending a freshly-keyed row and filtering by its key finds only it. -/
theorem filter_append_fresh (db : List Entity) (attrs : List (String × PyValue)) :
    (db ++ [(⟨freshId db, attrs⟩ : Entity)]).filter (fun e => e.id == freshId db) =
      [(⟨freshId db, attrs⟩ : Entity)] := by
  rw [List.filter_append]
  have h1 : db.filter (fun e => e.id == freshId db) = [] := by
    rw [List.filter_eq_nil_iff]
    intro a ha
    simp only [beq_iff_eq]
    exact Nat.ne_of_lt (id_lt_freshId ha)
  rw [h1]
  simp

/-- C2: POST without a configured create-validator answers 405 and creates
nothing; an unparsable body answers 400 and creates nothing; a parsed body
the validator rejects answers 200 with the validation-failure body and
creates nothing; a body the validator accepts creates exactly one new record
and answers 200 with that record serialized with all configured fields. -/
theorem post_spec (cfg : ViewConfig) (db : List Entity) (ki : Option Nat)
    (gp : List (String × String)) (body? : Option (List (String × PyValue))) :
    (cfg.add_form_class = none →
      post cfg db ki gp body? =
        (HandlerResult.ok ⟨405, Body.text "POST not supported", "text/html"⟩, db)) ∧
    (∀ form : AddFormClass, cfg.add_form_class = some form → body? = none →
      post cfg db ki gp body? =
        (HandlerResult.ok ⟨400, Body.text "Invalid POST JSON", "text/html"⟩, db)) ∧
    (∀ (form : AddFormClass) (d : List (String × PyValue)),
      cfg.add_form_class = some form → body? = some d → form.is_valid d = false →
      post cfg db ki gp body? =
        (HandlerResult.ok ⟨200, Body.text "ERROR: validation failed", "text/html"⟩, db)) ∧
    (∀ (form : AddFormClass) (d : List (String × PyValue)),
      cfg.add_form_class = some form → body? = some d → form.is_valid d = true →
      post cfg db ki gp body? =
        (HandlerResult.ok ⟨200,
          Body.json (JsonOut.obj (encodeDict
            (entityValues cfg.serialize_fields ⟨freshId db, form.newAttrs d⟩))),
          "application/json"⟩,
         db ++ [⟨freshId db, form.newAttrs d⟩])) := by
  refine ⟨?_, ?_, ?_, ?_⟩
  · intro h
    simp [post, h]
  · intro form hf hb
    simp [post, hf, hb]
  · intro form d hf hb hv
    simp [post, hf, hb, hv, validation_error_response]
  · intro form d hf hb hv
    simp only [post, hf, hb, hv, if_true]
    rw [filter_append_fresh db (form.newAttrs d)]
    simp [serialize_qs, qsValues, success_response]

/-- Witness for C2: the four POST outcomes at concrete inputs — a view with
no add form, then a configured view with a missing body, a rejected body and
an accepted body. -/
theorem post_spec_witness :
    post roCfg db3 none [] (some []) =
      (HandlerResult.ok ⟨405, Body.text "POST not supported", "text/html"⟩, db3) ∧
    post pagCfg db3 none [] none =
      (HandlerResult.ok ⟨400, Body.text "Invalid POST JSON", "text/html"⟩, db3) ∧
    post pagCfg db3 none [] (some [("wrong_field", PyValue.pyStr "xyz")]) =
      (HandlerResult.ok ⟨200, Body.text "ERROR: validation failed", "text/html"⟩, db3) ∧
    post pagCfg db3 none [] (some [("username", PyValue.pyStr "post_test")]) =
      (HandlerResult.ok ⟨200,
        Body.json (JsonOut.obj (encodeDict (entityValues pagCfg.serialize_fields
          ⟨freshId db3, testAddForm.newAttrs [("username", PyValue.pyStr "post_test")]⟩))),
        "application/json"⟩,
       db3 ++ [⟨freshId db3, testAddForm.newAttrs [("username", PyValue.pyStr "post_test")]⟩]) :=
  ⟨(post_spec roCfg db3 none [] (some [])).1 rfl,
   (post_spec pagCfg db3 none [] none).2.1 testAddForm rfl rfl,
   (post_spec pagCfg db3 none [] (some [("wrong_field", PyValue.pyStr "xyz")])).2.2.1
     testAddForm _ rfl rfl (by decide),
   (post_spec pagCfg db3 none [] (some [("username", PyValue.pyStr "post_test")])).2.2.2
     testAddForm _ rfl rfl (by decide)⟩

/-- C4: DELETE without an id answers 405 and deletes nothing; DELETE of an
existing id answers 200 with the pre-deletion snapshot as body and removes
the record from the store; repeating the DELETE on the same id then answers
404. -/
theorem delete_spec (cfg : ViewConfig) (db : List Entity)
    (gp : List (String × String)) :
    (delete cfg db none gp =
      (HandlerResult.ok ⟨405, Body.text "DELETE is not supported for collections", "text/html"⟩,
       db)) ∧
    (∀ (i : Nat) (e : Entity), db.filter (fun x => x.id == i) = [e] →
      delete cfg db (some i) gp =
        (HandlerResult.ok ⟨200,
          Body.json (JsonOut.obj (encodeDict (entityValues cfg.serialize_fields e))),
          "application/json"⟩,
         db.filter (fun x => !(x.id == i)))) ∧
    (∀ (i : Nat) (e : Entity), db.filter (fun x => x.id == i) = [e] →
      (delete cfg (delete cfg db (some i) gp).2 (some i) gp).1 =
        HandlerResult.http404) := by
  have hdel : ∀ (i : Nat) (e : Entity), db.filter (fun x => x.id == i) = [e] →
      delete cfg db (some i) gp =
        (HandlerResult.ok ⟨200,
          Body.json (JsonOut.obj (encodeDict (entityValues cfg.serialize_fields e))),
          "application/json"⟩,
         db.filter (fun x => !(x.id == i))) := by
    intro i e he
    simp [delete, he, serialize_qs, qsValues, success_response]
  refine ⟨by simp [delete], hdel, ?_⟩
  intro i e he
  rw [hdel i e he]
  have hnil : (db.filter (fun x => !(x.id == i))).filter (fun x => x.id == i) = [] := by
    rw [List.filter_filter, List.filter_eq_nil_iff]
    intro a _
    simp
  simp [delete, hnil]

/-- Witness for C4: deleting id 1 out of a three-row store returns its
snapshot and removes it; deleting it again is a 404. -/
theorem delete_spec_witness :
    delete roCfg db3 (some 1) [] =
      (HandlerResult.ok ⟨200,
        Body.json (JsonOut.obj (encodeDict (entityValues roCfg.serialize_fields user1))),
        "application/json"⟩,
       db3.filter (fun x => !(x.id == 1))) ∧
    (delete roCfg (delete roCfg db3 (some 1) []).2 (some 1) []).1 =
      HandlerResult.http404 :=
  ⟨(delete_spec roCfg db3 []).2.1 1 user1 (by decide),
   (delete_spec roCfg db3 []).2.2 1 user1 (by decide)⟩

/-- Replacing the unique row matching a key, then filtering by that key,
finds exactly the replacement. -/
theorem filter_map_replace (db : List Entity) (i : Nat) (item inst : Entity)
    (hitem : item.id = i) (h : db.filter (fun e => e.id == i) = [inst]) :
    (db.map (fun e => if e.id == i then item else e)).filter (fun e => e.id == i) =
      [item] := by
  induction db with
  | nil => simp at h
  | cons hd tl ih =>
    by_cases hc : hd.id = i
    · rw [List.filter_cons] at h
      simp only [hc, beq_self_eq_true, if_true] at h
      obtain ⟨-, h2⟩ := List.cons_eq_cons.mp h
      have htl : (tl.map (fun e => if e.id == i then item else e)).filter
          (fun e => e.id == i) = [] := by
        rw [List.filter_eq_nil_iff]
        intro b hb
        obtain ⟨a, ha, rfl⟩ := List.mem_map.mp hb
        have hai : ¬ a.id = i := by
          have := List.filter_eq_nil_iff.mp h2 a ha
          simpa using this
        simp [hai]
      simp only [List.map_cons, hc, beq_self_eq_true, if_true, List.filter_cons,
        hitem, htl]
    · rw [List.filter_cons] at h
      simp only [hc, beq_iff_eq, if_false] at h
      simp only [List.map_cons]
      rw [List.filter_cons]
      have hne : ((if hd.id == i then item else hd).id == i) = false := by
        simp [hc]
      rw [hne]
      simp only [Bool.false_eq_true, if_false]
      exact ih h

/-- C3: PUT without an edit-validator or without an id answers 405; an
unparsable body answers 400; a missing id answers 404 leaving the store
unmodified; a rejected body answers with the validation-failure body leaving
the targeted record unmodified; an accepted body updates exactly the targeted
record and answers 200 with its new serialized state. -/
theorem put_spec (cfg : ViewConfig) (db : List Entity) (ki : Option Nat)
    (gp : List (String × String)) (body? : Option (List (String × PyValue))) :
    ((cfg.edit_form_class = none ∨ ki = none) →
      put cfg db ki gp body? =
        (HandlerResult.ok ⟨405, Body.text "PUT not supported", "text/html"⟩, db)) ∧
    (∀ (form : EditFormClass) (i : Nat),
      cfg.edit_form_class = some form → ki = some i → body? = none →
      put cfg db ki gp body? =
        (HandlerResult.ok ⟨400, Body.text "Invalid PUT JSON", "text/html"⟩, db)) ∧
    (∀ (form : EditFormClass) (i : Nat) (d : List (String × PyValue)),
      cfg.edit_form_class = some form → ki = some i → body? = some d →
      db.filter (fun e => e.id == i) = [] →
      put cfg db ki gp body? = (HandlerResult.http404, db)) ∧
    (∀ (form : EditFormClass) (i : Nat) (d : List (String × PyValue)) (inst : Entity),
      cfg.edit_form_class = some form → ki = some i → body? = some d →
      db.filter (fun e => e.id == i) = [inst] → form.is_valid d = false →
      put cfg db ki gp body? =
        (HandlerResult.ok ⟨200, Body.text "ERROR: validation failed", "text/html"⟩, db)) ∧
    (∀ (form : EditFormClass) (i : Nat) (d : List (String × PyValue)) (inst : Entity),
      cfg.edit_form_class = some form → ki = some i → body? = some d →
      db.filter (fun e => e.id == i) = [inst] → form.is_valid d = true →
      put cfg db ki gp body? =
        (HandlerResult.ok ⟨200,
          Body.json (JsonOut.obj (encodeDict
            (entityValues cfg.serialize_fields ⟨inst.id, form.updAttrs inst.attrs d⟩))),
          "application/json"⟩,
         db.map (fun e => if e.id == i then ⟨inst.id, form.updAttrs inst.attrs d⟩ else e))) := by
  refine ⟨?_, ?_, ?_, ?_, ?_⟩
  · intro h
    rcases h with h | h
    · simp [put, h]
    · cases hf : cfg.edit_form_class with
      | none => simp [put, h, hf]
      | some form => simp [put, h, hf]
  · intro form i hf hk hb
    simp [put, hf, hk, hb]
  · intro form i d hf hk hb hfil
    simp [put, hf, hk, hb, dbGet, hfil]
  · intro form i d inst hf hk hb hfil hv
    simp [put, hf, hk, hb, dbGet, hfil, hv, validation_error_response]
  · intro form i d inst hf hk hb hfil hv
    have hmem : inst ∈ db.filter (fun e => e.id == i) := by
      rw [hfil]; exact List.mem_singleton.mpr rfl
    have hid : inst.id = i := by
      have := (List.mem_filter.mp hmem).2
      simpa using this
    simp only [put, hf, hk, hb, dbGet, hfil, hv, if_true]
    rw [hid]
    rw [filter_map_replace db i ⟨i, form.updAttrs inst.attrs d⟩ inst rfl hfil]
    simp [serialize_qs, qsValues, success_response]

/-- Witness for C3: the five PUT outcomes at concrete inputs — no edit form,
no id, missing body, missing row, rejected body and accepted body. -/
theorem put_spec_witness :
    put roCfg db3 (some 1) [] (some [("username", PyValue.pyStr "x")]) =
      (HandlerResult.ok ⟨405, Body.text "PUT not supported", "text/html"⟩, db3) ∧
    put pagCfg db3 (some 1) [] none =
      (HandlerResult.ok ⟨400, Body.text "Invalid PUT JSON", "text/html"⟩, db3) ∧
    put pagCfg db3 (some 27) [] (some [("username", PyValue.pyStr "put_test")]) =
      (HandlerResult.http404, db3) ∧
    put pagCfg db3 (some 1) [] (some [("wrong_field", PyValue.pyStr "xyz")]) =
      (HandlerResult.ok ⟨200, Body.text "ERROR: validation failed", "text/html"⟩, db3) ∧
    put pagCfg db3 (some 1) [] (some [("username", PyValue.pyStr "put_test")]) =
      (HandlerResult.ok ⟨200,
        Body.json (JsonOut.obj (encodeDict (entityValues pagCfg.serialize_fields
          ⟨user1.id, testEditForm.updAttrs user1.attrs [("username", PyValue.pyStr "put_test")]⟩))),
        "application/json"⟩,
       db3.map (fun e => if e.id == 1 then
         ⟨user1.id, testEditForm.updAttrs user1.attrs [("username", PyValue.pyStr "put_test")]⟩
         else e)) :=
  ⟨(put_spec roCfg db3 (some 1) [] (some [("username", PyValue.pyStr "x")])).1 (Or.inl rfl),
   (put_spec pagCfg db3 (some 1) [] none).2.1 testEditForm 1 rfl rfl rfl,
   (put_spec pagCfg db3 (some 27) [] (some [("username", PyValue.pyStr "put_test")])).2.2.1
     testEditForm 27 _ rfl rfl rfl (by decide),
   (put_spec pagCfg db3 (some 1) [] (some [("wrong_field", PyValue.pyStr "xyz")])).2.2.2.1
     testEditForm 1 _ user1 rfl rfl rfl (by decide) (by decide),
   (put_spec pagCfg db3 (some 1) [] (some [("username", PyValue.pyStr "put_test")])).2.2.2.2
     testEditForm 1 _ user1 rfl rfl rfl (by decide) (by decide)⟩

/-- In single-object mode a non-empty queryset never serializes to the
error outcome: the `IndexError` branch of `values[0]` is unreachable. -/
theorem serialize_qs_some_of_ne_nil (cfg : ViewConfig) (ki : Option Nat)
    (gp : List (String × String)) (qs : List Entity) (so : Bool)
    (hc : (so || ki.isSome) = true) (h : qs ≠ []) :
    serialize_qs cfg ki gp qs so ≠ none := by
  unfold serialize_qs
  simp only [hc, if_true]
  cases hq : qsValues cfg.serialize_fields qs with
  | nil =>
    exfalso
    apply h
    simpa [qsValues] using hq
  | cons v rest => simp

/-- With pairwise-distinct ids, filtering by an id finds at most one row. -/
theorem filter_length_le_one {db : List Entity}
    (hnd : (db.map (fun e => e.id)).Nodup) (i : Nat) :
    (db.filter (fun e => e.id == i)).length ≤ 1 := by
  induction db with
  | nil => simp
  | cons hd tl ih =>
    rw [List.map_cons, List.nodup_cons] at hnd
    rw [List.filter_cons]
    by_cases hc : hd.id = i
    · have htl : tl.filter (fun e => e.id == i) = [] := by
        rw [List.filter_eq_nil_iff]
        intro a ha hai
        apply hnd.1
        rw [List.mem_map]
        refine ⟨a, ha, ?_⟩
        have hai2 : a.id = i := by simpa using hai
        rw [hai2, hc]
      simp [hc, htl]
    · have hne : (hd.id == i) = false := by simp [hc]
      rw [hne]
      simp only [Bool.false_eq_true, if_false]
      exact ih hnd.2

/-- With pairwise-distinct ids, `queryset.get(id=...)` never raises
`MultipleObjectsReturned`. -/
theorem dbGet_ne_multiple {db : List Entity}
    (hnd : (db.map (fun e => e.id)).Nodup) (i : Nat) :
    dbGet db i ≠ GetResult.multipleReturned := by
  have hle := filter_length_le_one hnd i
  unfold dbGet
  cases hq : db.filter (fun e => e.id == i) with
  | nil => simp
  | cons e rest =>
    cases rest with
    | nil => simp
    | cons f rest2 => rw [hq] at hle; simp at hle

/-- A successful `queryset.get(id=...)` means the filter found exactly that
row. -/
theorem dbGet_found_filter {db : List Entity} {i : Nat} {inst : Entity}
    (hg : dbGet db i = GetResult.found inst) :
    db.filter (fun e => e.id == i) = [inst] := by
  unfold dbGet at hg
  cases hq : db.filter (fun e => e.id == i) with
  | nil => rw [hq] at hg; simp at hg
  | cons e rest =>
    cases rest with
    | nil =>
      rw [hq] at hg
      simp only [GetResult.found.injEq] at hg
      rw [hg]
    | cons f rest2 => rw [hq] at hg; simp at hg

/-- C8: the unguarded `values[0]` in the single-object serialization branch
is unreachable from every handler path that reaches it — single-object-mode
serialization of a non-empty queryset never fails, and GET with an id,
DELETE, POST and (over pairwise-distinct row ids) PUT never end in an
uncaught exception. -/
theorem values_index_unreachable (cfg : ViewConfig) (db qs : List Entity)
    (ki : Option Nat) (gp : List (String × String))
    (body? : Option (List (String × PyValue))) (so : Bool) :
    ((so || ki.isSome) = true → qs ≠ [] → serialize_qs cfg ki gp qs so ≠ none) ∧
    (∀ i : Nat, get cfg db (some i) gp ≠ HandlerResult.uncaught) ∧
    (delete cfg db ki gp).1 ≠ HandlerResult.uncaught ∧
    (post cfg db ki gp body?).1 ≠ HandlerResult.uncaught ∧
    ((db.map (fun e => e.id)).Nodup →
      (put cfg db ki gp body?).1 ≠ HandlerResult.uncaught) := by
  refine ⟨serialize_qs_some_of_ne_nil cfg ki gp qs so, ?_, ?_, ?_, ?_⟩
  · intro i
    unfold get get_single_item
    by_cases hl : (db.filter (fun e => e.id == i)).length = 1
    · simp only [hl, if_true]
      cases hs : serialize_qs cfg (some i) gp (db.filter (fun e => e.id == i)) false with
      | none =>
        exfalso
        refine serialize_qs_some_of_ne_nil cfg (some i) gp _ false rfl ?_ hs
        intro hnil
        rw [hnil] at hl
        simp at hl
      | some out => simp
    · simp [hl]
  · cases ki with
    | none => simp [delete]
    | some i =>
      unfold delete
      by_cases hq : (db.filter (fun e => e.id == i)).isEmpty
      · simp [hq]
      · simp only [hq, Bool.false_eq_true, if_false]
        cases hs : serialize_qs cfg (some i) gp (db.filter (fun e => e.id == i)) false with
        | none =>
          exfalso
          refine serialize_qs_some_of_ne_nil cfg (some i) gp _ false rfl ?_ hs
          intro hnil
          rw [hnil] at hq
          simp at hq
        | some out => simp
  · unfold post
    cases hf : cfg.add_form_class with
    | none => simp
    | some form =>
      cases body? with
      | none => simp
      | some d =>
        by_cases hv : form.is_valid d = true
        · simp only [hv, if_true]
          rw [filter_append_fresh db (form.newAttrs d)]
          cases hs : serialize_qs cfg ki gp [(⟨freshId db, form.newAttrs d⟩ : Entity)] true with
          | none =>
            exact absurd hs
              (serialize_qs_some_of_ne_nil cfg ki gp _ true rfl (by simp))
          | some out => simp
        · rw [Bool.not_eq_true] at hv
          simp [hv]
  · intro hnd
    unfold put
    cases hf : cfg.edit_form_class with
    | none => simp
    | some form =>
      cases ki with
      | none => simp
      | some i =>
        cases body? with
        | none => simp
        | some d =>
          cases hg : dbGet db i with
          | doesNotExist => simp [hg]
          | multipleReturned => exact absurd hg (dbGet_ne_multiple hnd i)
          | found inst =>
            have hfil := dbGet_found_filter hg
            have hmem : inst ∈ db := by
              have hm : inst ∈ db.filter (fun e => e.id == i) := by
                rw [hfil]; exact List.mem_singleton.mpr rfl
              exact (List.mem_filter.mp hm).1
            have hid : inst.id = i := by
              have hm : inst ∈ db.filter (fun e => e.id == i) := by
                rw [hfil]; exact List.mem_singleton.mpr rfl
              simpa using (List.mem_filter.mp hm).2
            by_cases hv : form.is_valid d = true
            · simp only [hg, hv, if_true]
              split
              · simp
              · rename_i hs
                exfalso
                refine serialize_qs_some_of_ne_nil cfg (some i) gp _ true rfl ?_ hs
                apply List.ne_nil_of_mem
                  (a := (⟨inst.id, form.updAttrs inst.attrs d⟩ : Entity))
                rw [List.mem_filter]
                refine ⟨?_, by simp⟩
                rw [List.mem_map]
                exact ⟨inst, hmem, by simp [hid]⟩
            · rw [Bool.not_eq_true] at hv
              simp [hg, hv]

/-- Witness for C8: a concrete non-empty queryset serializes successfully,
and a concrete PUT over a store with distinct ids does not crash. -/
theorem values_index_unreachable_witness :
    serialize_qs roCfg (some 1) [] [user1] false ≠ none ∧
    (put pagCfg db3 (some 1) [] (some [("username", PyValue.pyStr "x")])).1 ≠
      HandlerResult.uncaught :=
  ⟨(values_index_unreachable roCfg db3 [user1] (some 1) [] none false).1
      (by decide) (by decide),
   (values_index_unreachable pagCfg db3 [user1] (some 1) []
      (some [("username", PyValue.pyStr "x")]) false).2.2.2.2 (by decide)⟩

/-- A paginated collection serialization is the queryset slice at the
spec-side offset, with the slice's failure propagated. -/
theorem serialize_qs_paged (cfg : ViewConfig) (gp : List (String × String))
    (qs : List Entity) (ps : Int) (h : cfg.page_size = some ps) :
    serialize_qs cfg none gp qs false =
      match qsSlice (qsValues cfg.serialize_fields qs)
        (specPageOffset gp cfg.page_param_name ps)
        (specPageOffset gp cfg.page_param_name ps + ps) with
      | some sliced => some (JsonOut.arr (sliced.map encodeDict))
      | none => none := by
  unfold serialize_qs specPageOffset
  rw [h]
  cases hq : queryGet gp cfg.page_param_name with
  | none => simp [hq]
  | some s =>
    cases hp : pyIntOfString? s with
    | none => simp [hq, hp]
    | some n => simp [hq, hp]

/-- C5 counterexample: with page size 2 over three rows, the page parameter
`0` parses to an integer, so the computed offset is `-2` and the negative
queryset slice raises an uncaught error — the request yields no 200 array of
items at all, against the claim's for-every-request conclusion. -/
theorem get_collection_pagination_cex :
    get pagCfg db3 none [("p", "0")] = HandlerResult.uncaught ∧
    arrLen (get pagCfg db3 none [("p", "0")]) = none :=
  ⟨by decide, by decide⟩

/-- C5 (amended): with an integer page size configured, the page number is
read from the configured parameter (default 1 when absent), the zero-based
offset is `(page_number - 1) * page_size`, and — provided the resulting
slice bounds are non-negative, which holds whenever the page number is at
least 1 — the returned items are exactly that slice of the ordered
collection, holding at most `page_size` items; a non-numeric page value
falls back to offset 0 (the first page).  In particular, with page size 2
and 3 rows, page 1 yields 2 items, page 2 yields 1 item, and a non-numeric
page parameter yields page 1's items.  (A parsed page below 1 instead makes
the queryset slice raise an uncaught error: see the counterexample.) -/
theorem get_collection_pagination (cfg : ViewConfig) (db : List Entity)
    (gp : List (String × String)) (ps : Int) :
    (cfg.page_size = some ps →
      0 ≤ specPageOffset gp cfg.page_param_name ps →
      0 ≤ specPageOffset gp cfg.page_param_name ps + ps →
      get cfg db none gp =
        HandlerResult.ok ⟨200,
          Body.json (JsonOut.arr ((pySlice (qsValues cfg.serialize_fields db)
            (specPageOffset gp cfg.page_param_name ps)
            (specPageOffset gp cfg.page_param_name ps + ps)).map encodeDict)),
          "application/json"⟩) ∧
    arrLen (get pagCfg db3 none []) = some 2 ∧
    arrLen (get pagCfg db3 none [("p", "2")]) = some 1 ∧
    get pagCfg db3 none [("p", "abc")] = get pagCfg db3 none [("p", "1")] ∧
    arrLen (get pagCfg db3 none [("p", "1")]) = some 2 := by
  refine ⟨?_, by decide, by decide, by decide, by decide⟩
  intro h h0 h1
  unfold get get_collection
  rw [serialize_qs_paged cfg gp db ps h]
  simp only [qsSlice]
  rw [if_neg (by omega)]
  simp [success_response]

/-- Witness for C5: a concrete page-2 request equals the specified slice. -/
theorem get_collection_pagination_witness :
    get pagCfg db3 none [("p", "2")] =
      HandlerResult.ok ⟨200,
        Body.json (JsonOut.arr ((pySlice (qsValues pagCfg.serialize_fields db3)
          (specPageOffset [("p", "2")] pagCfg.page_param_name 2)
          (specPageOffset [("p", "2")] pagCfg.page_param_name 2 + 2)).map encodeDict)),
        "application/json"⟩ :=
  (get_collection_pagination pagCfg db3 [("p", "2")] 2).1 rfl (by decide) (by decide)

/-- C10 counterexample: the page parameter `-1` parses to the integer `-1`,
so the offset-0 fallback does not apply, but no slice of the collection is
returned either: the negative queryset slice raises an uncaught error. -/
theorem pagination_accepts_nonpositive_pages_cex :
    pyIntOfString? "-1" = some (-1) ∧
    get pagCfg db3 none [("p", "-1")] = HandlerResult.uncaught ∧
    arrLen (get pagCfg db3 none [("p", "-1")]) = none :=
  ⟨by decide, by decide, by decide⟩

/-- C10 (amended): the offset-0 fallback applies only when the page
parameter fails integer parsing — a parsed integer page is accepted and its
offset `(page_number - 1) * page_size` is used as is: with non-negative
slice bounds the response is served from that offset, while a page below 1
yields a negative offset whose queryset slice raises an uncaught error, so
no slice of the collection is returned at all; with page size 2 over 3
rows, page `0` parses and ends in that uncaught error. -/
theorem pagination_accepts_nonpositive_pages (cfg : ViewConfig)
    (db : List Entity) (gp : List (String × String)) (ps : Int) (s : String)
    (n : Int) :
    (cfg.page_size = some ps → queryGet gp cfg.page_param_name = some s →
      pyIntOfString? s = some n →
      0 ≤ (n - 1) * ps → 0 ≤ (n - 1) * ps + ps →
      get cfg db none gp =
        HandlerResult.ok ⟨200,
          Body.json (JsonOut.arr ((pySlice (qsValues cfg.serialize_fields db)
            ((n - 1) * ps) ((n - 1) * ps + ps)).map encodeDict)),
          "application/json"⟩) ∧
    (cfg.page_size = some ps → queryGet gp cfg.page_param_name = some s →
      pyIntOfString? s = some n → (n - 1) * ps < 0 →
      get cfg db none gp = HandlerResult.uncaught) ∧
    pyIntOfString? "0" = some 0 ∧
    pyIntOfString? "-1" = some (-1) ∧
    get pagCfg db3 none [("p", "0")] = HandlerResult.uncaught := by
  have hoff : ∀ hq : queryGet gp cfg.page_param_name = some s,
      ∀ hp : pyIntOfString? s = some n,
      specPageOffset gp cfg.page_param_name ps = (n - 1) * ps := by
    intro hq hp
    unfold specPageOffset
    simp only [hq, hp]
  refine ⟨?_, ?_, by decide, by decide, by decide⟩
  · intro h hq hp h0 h1
    unfold get get_collection
    rw [serialize_qs_paged cfg gp db ps h, hoff hq hp]
    simp only [qsSlice]
    rw [if_neg (by omega)]
    simp [success_response]
  · intro h hq hp hneg
    unfold get get_collection
    rw [serialize_qs_paged cfg gp db ps h, hoff hq hp]
    simp only [qsSlice]
    rw [if_pos (Or.inl hneg)]

/-- Witness for C10: a concrete page-3 request (offset 4, past the end) is
served from its own offset, and the page-0 request ends uncaught. -/
theorem pagination_accepts_nonpositive_pages_witness :
    get pagCfg db3 none [("p", "3")] =
      HandlerResult.ok ⟨200,
        Body.json (JsonOut.arr ((pySlice (qsValues pagCfg.serialize_fields db3)
          ((3 - 1) * 2) ((3 - 1) * 2 + 2)).map encodeDict)),
        "application/json"⟩ ∧
    get pagCfg db3 none [("p", "0")] = HandlerResult.uncaught :=
  ⟨(pagination_accepts_nonpositive_pages pagCfg db3 [("p", "3")] 2 "3" 3).1
      rfl (by decide) (by decide) (by decide) (by decide),
   (pagination_accepts_nonpositive_pages pagCfg db3 [("p", "0")] 2 "0" 0).2.1
      rfl (by decide) (by decide) (by decide)⟩

end Djangbone
